import Mathlib

/-!
Verification of the `apache/datafusion-benchmarks` micro-benchmark harness.

The development shallowly embeds the Python sources:
  * `src/microbenchmarks/microbenchmarks.py`
  * `src/microbenchmarks/string_functions_benchmark.py`
  * `src/microbenchmarks/suites/__init__.py`, `strings.py`, `temporal.py`, `numeric.py`
  * `src/scripts/generate-comparison.py`

Latency values are Python floats; the values reachable in this code are
non-negative rationals, the NaN failure sentinel produced by the
`except` branches, and the infinity produced by `BenchmarkResult.speedup`
on a zero denominator.  They are modelled by the three-constructor type
`PFloat`.  Fallible Python code (division by zero, `KeyError` from
`str.format`, `ValueError` from `get_suite`) is modelled with `Except`.
-/

/-- Python exceptions raised by the embedded code.  `engineError` stands for
any exception escaping an engine call (the sources catch bare `Exception`). -/
inductive PyErr where
  | zeroDivisionError
  | keyError (key : String)
  | valueError (msg : String)
  | engineError (msg : String)
deriving DecidableEq, Repr

deriving instance DecidableEq for Except

/-- Python float values reachable as latencies in this code base:
the NaN failure sentinel, `float('inf')`, and finite values (floats are
rationals; all arithmetic performed on them here is exact). -/
inductive PFloat where
  | nan
  | inf
  | fin (q : ℚ)
deriving DecidableEq, Repr

/-- Python's `x != x` test used by the sources to detect NaN: true exactly on NaN. -/
def PFloat.isNaN : PFloat → Bool
  | PFloat.nan => true
  | _ => false

/-- Python comparison `x > 1` (NaN compares false, `inf > 1` is true). -/
def PFloat.gtOne : PFloat → Bool
  | PFloat.nan => false
  | PFloat.inf => true
  | PFloat.fin q => decide (1 < q)

/-- Whether a displayed ratio is at least `1.0` (`inf` counts as such; NaN does not). -/
def PFloat.geOne : PFloat → Bool
  | PFloat.nan => false
  | PFloat.inf => true
  | PFloat.fin q => decide (1 ≤ q)

/-- Python `1 / x` on a float: raises `ZeroDivisionError` on `0.0`,
propagates NaN, and maps `inf` to `0.0`. -/
def PFloat.oneOver : PFloat → Except PyErr PFloat
  | PFloat.nan => Except.ok PFloat.nan
  | PFloat.inf => Except.ok (PFloat.fin 0)
  | PFloat.fin q => if q = 0 then Except.error PyErr.zeroDivisionError
                    else Except.ok (PFloat.fin (1 / q))

/-- Python `x + y` on floats as used by `sum(...)` over latencies: NaN absorbs,
then infinity absorbs, finite values add exactly. -/
def PFloat.add : PFloat → PFloat → PFloat
  | PFloat.nan, _ => PFloat.nan
  | _, PFloat.nan => PFloat.nan
  | PFloat.inf, _ => PFloat.inf
  | _, PFloat.inf => PFloat.inf
  | PFloat.fin a, PFloat.fin b => PFloat.fin (a + b)

/-- The two engines compared by the harness. -/
inductive Engine where
  | DataFusion
  | DuckDB
deriving DecidableEq, Repr

/-- The `BenchmarkFunction` / `StringFunction` dataclass (identical in
`microbenchmarks.py` lines 35-40, `string_functions_benchmark.py` lines 41-46 and
`suites/__init__.py` lines 8-13): a named case with one SQL expression template
per engine, placeholders standing for column names. -/
structure BenchmarkFunction where
  name : String
  datafusion_expr : String
  duckdb_expr : String
deriving DecidableEq, Repr

/-- `microbenchmarks.py` names the same dataclass `StringFunction`. -/
abbrev StringFunction := BenchmarkFunction

namespace PyFormat

/-- Scanner for the placeholder names of a `str.format` template.  The templates
in this repository use only simple `{name}` replacement fields (no `{{` escapes,
no format specs), which is all this scanner handles.  `cur = some buf` means the
scanner is inside a field whose name so far is `buf` (reversed). -/
def placeholdersAux : List Char → Option (List Char) → List String
  | [], _ => []
  | c :: rest, none =>
      if c = '{' then placeholdersAux rest (some [])
      else placeholdersAux rest none
  | c :: rest, some cur =>
      if c = '}' then String.mk cur.reverse :: placeholdersAux rest none
      else placeholdersAux rest (some (c :: cur))

/-- The placeholder names appearing in a template, in order of appearance. -/
def placeholders (s : String) : List String :=
  placeholdersAux s.toList none

/-- Keyword-argument lookup for `template.format(**columns)`: first binding wins. -/
def lookup (cols : List (String × String)) (key : String) : Option String :=
  (cols.find? (fun p => p.1 = key)).map (fun p => p.2)

/-- The character-level engine of `str.format`: substitute every `{name}` field
with its binding, raising `KeyError` on an unbound name (as Python does) and
`ValueError` on an unterminated field. -/
def formatAux (cols : List (String × String)) :
    List Char → Option (List Char) → Except PyErr (List Char)
  | [], none => Except.ok []
  | [], some _ => Except.error (PyErr.valueError "Single opening brace in format string")
  | c :: rest, none =>
      if c = '{' then formatAux cols rest (some [])
      else do
        let out ← formatAux cols rest none
        Except.ok (c :: out)
  | c :: rest, some cur =>
      if c = '}' then
        match lookup cols (String.mk cur.reverse) with
        | none => Except.error (PyErr.keyError (String.mk cur.reverse))
        | some v => do
            let out ← formatAux cols rest none
            Except.ok (v.toList ++ out)
      else formatAux cols rest (some (c :: cur))

/-- `template.format(**columns)` for the simple templates of this repository. -/
def format (template : String) (cols : List (String × String)) : Except PyErr String :=
  (formatAux cols template.toList none).map String.mk

end PyFormat

namespace Microbenchmarks

/-- The `STRING_FUNCTIONS` catalogue of `microbenchmarks.py` lines 45-73:
`{col}` is replaced with the actual column name. -/
def STRING_FUNCTIONS : List StringFunction := [
  ⟨"trim", "trim({col})", "trim({col})"⟩,
  ⟨"ltrim", "ltrim({col})", "ltrim({col})"⟩,
  ⟨"rtrim", "rtrim({col})", "rtrim({col})"⟩,
  ⟨"lower", "lower({col})", "lower({col})"⟩,
  ⟨"upper", "upper({col})", "upper({col})"⟩,
  ⟨"length", "length({col})", "length({col})"⟩,
  ⟨"char_length", "char_length({col})", "length({col})"⟩,
  ⟨"reverse", "reverse({col})", "reverse({col})"⟩,
  ⟨"repeat_3", "repeat({col}, 3)", "repeat({col}, 3)"⟩,
  ⟨"concat", "concat({col}, {col})", "concat({col}, {col})"⟩,
  ⟨"concat_ws", "concat_ws('-', {col}, {col})", "concat_ws('-', {col}, {col})"⟩,
  ⟨"substring_1_5", "substring({col}, 1, 5)", "substring({col}, 1, 5)"⟩,
  ⟨"left_5", "left({col}, 5)", "left({col}, 5)"⟩,
  ⟨"right_5", "right({col}, 5)", "right({col}, 5)"⟩,
  ⟨"lpad_20", "lpad({col}, 20, '*')", "lpad({col}, 20, '*')"⟩,
  ⟨"rpad_20", "rpad({col}, 20, '*')", "rpad({col}, 20, '*')"⟩,
  ⟨"replace", "replace({col}, 'a', 'X')", "replace({col}, 'a', 'X')"⟩,
  ⟨"translate", "translate({col}, 'aeiou', '12345')", "translate({col}, 'aeiou', '12345')"⟩,
  ⟨"ascii", "ascii({col})", "ascii({col})"⟩,
  ⟨"md5", "md5({col})", "md5({col})"⟩,
  ⟨"sha256", "sha256({col})", "sha256({col})"⟩,
  ⟨"btrim", "btrim({col}, ' ')", "trim({col}, ' ')"⟩,
  ⟨"split_part", "split_part({col}, ' ', 1)", "split_part({col}, ' ', 1)"⟩,
  ⟨"starts_with", "starts_with({col}, 'test')", "starts_with({col}, 'test')"⟩,
  ⟨"ends_with", "ends_with({col}, 'data')", "ends_with({col}, 'data')"⟩,
  ⟨"strpos", "strpos({col}, 'e')", "strpos({col}, 'e')"⟩,
  ⟨"regexp_replace", "regexp_replace({col}, '[aeiou]', '*')", "regexp_replace({col}, '[aeiou]', '*', 'g')"⟩]

/-- The `BenchmarkResult` dataclass (`microbenchmarks.py` lines 19-26, identical in
`string_functions_benchmark.py` lines 25-31). -/
structure BenchmarkResult where
  function_name : String
  datafusion_time_ms : PFloat
  duckdb_time_ms : PFloat
  rows : ℕ
deriving DecidableEq, Repr

/-- `BenchmarkResult.speedup` (`microbenchmarks.py` lines 27-32): "DuckDB time /
DataFusion time (>1 means DataFusion is faster)"; returns `float('inf')` when
`self.datafusion_time_ms == 0` (a NaN compares unequal to 0, so it falls through
to the division, where it propagates). -/
def BenchmarkResult.speedup (r : BenchmarkResult) : PFloat :=
  if r.datafusion_time_ms = PFloat.fin 0 then PFloat.inf
  else
    match r.datafusion_time_ms, r.duckdb_time_ms with
    | PFloat.nan, _ => PFloat.nan
    | _, PFloat.nan => PFloat.nan
    | PFloat.inf, PFloat.inf => PFloat.nan
    | PFloat.inf, PFloat.fin _ => PFloat.fin 0
    | PFloat.fin _, PFloat.inf => PFloat.inf
    | PFloat.fin a, PFloat.fin b => PFloat.fin (b / a)

/-- One row of the markdown table of `format_results_markdown`
(`microbenchmarks.py` lines 254-270, verbatim in `string_functions_benchmark.py`
lines 543-558).  The `errorRow` constructor is rendered as
`| name | ERROR | ERROR | N/A | N/A |`; the `dataRow` constructor as
`| name | df ms | duck ms | ratio x | faster |`. -/
inductive Row where
  | errorRow (function_name : String)
  | dataRow (function_name : String) (datafusion_time_ms duckdb_time_ms : PFloat)
      (speedup_disp : PFloat) (faster : Engine)
deriving DecidableEq, Repr

/-- The per-result body of the report loop (`microbenchmarks.py` lines 254-270):
a NaN on either side yields the explicit error row; otherwise the row shows
`speedup` and `DataFusion` when `speedup > 1`, else `1/speedup` and `DuckDB`
(Python raises `ZeroDivisionError` on `1/0.0`). -/
def format_result_row (r : BenchmarkResult) : Except PyErr Row :=
  if r.datafusion_time_ms.isNaN || r.duckdb_time_ms.isNaN then
    Except.ok (Row.errorRow r.function_name)
  else
    let speedup := r.speedup
    if speedup.gtOne then
      Except.ok (Row.dataRow r.function_name r.datafusion_time_ms r.duckdb_time_ms
        speedup Engine.DataFusion)
    else do
      let inv ← speedup.oneOver
      Except.ok (Row.dataRow r.function_name r.datafusion_time_ms r.duckdb_time_ms
        inv Engine.DuckDB)

/-- The report's row loop: one row per result, in order; an exception escaping a
row aborts the whole report, as in Python. -/
def format_rows : List BenchmarkResult → Except PyErr (List Row)
  | [] => Except.ok []
  | r :: rest => do
      let row ← format_result_row r
      let rows ← format_rows rest
      Except.ok (row :: rows)

/-- The validity filter of the summary block (`microbenchmarks.py` lines 273-275):
a result participates when neither latency is NaN. -/
def bothValid (r : BenchmarkResult) : Bool :=
  !r.datafusion_time_ms.isNaN && !r.duckdb_time_ms.isNaN

/-- The summary block of `format_results_markdown` (lines 277-293). -/
structure Summary where
  functions_tested : ℕ
  df_wins : ℕ
  duck_wins : ℕ
  df_total : PFloat
  duck_total : PFloat
deriving DecidableEq, Repr

/-- The summary aggregates (`microbenchmarks.py` lines 272-293): computed over
`valid_results` only; `none` models the omitted summary block when no result
is valid. -/
def summaryOf (results : List BenchmarkResult) : Option Summary :=
  let valid_results := results.filter bothValid
  if valid_results.isEmpty then none
  else
    let df_wins := (valid_results.filter (fun r => r.speedup.gtOne)).length
    some ⟨valid_results.length,
      df_wins,
      valid_results.length - df_wins,
      (valid_results.map (fun r => r.datafusion_time_ms)).foldl PFloat.add (PFloat.fin 0),
      (valid_results.map (fun r => r.duckdb_time_ms)).foldl PFloat.add (PFloat.fin 0)⟩

/-- The outcome of one engine-benchmark call inside the `try` blocks of
`run_benchmarks`: an exception is converted to the NaN sentinel
(`microbenchmarks.py` lines 205-215). -/
def pyTry (outcome : Except PyErr ℚ) : PFloat :=
  match outcome with
  | Except.ok q => PFloat.fin q
  | Except.error _ => PFloat.nan

/-- The case loop of `run_benchmarks` (`microbenchmarks.py` lines 199-231,
structurally identical in `string_functions_benchmark.py` lines 493-524).
`k` is the position of the current case; `df` and `duck` give the outcome of
the corresponding engine-benchmark call for each case of this run (`Except.error`
models a raised exception, caught by the per-engine `try`).  Template expansion
happens before the `try` blocks, so a `KeyError` there propagates. -/
def run_benchmarks_go (cols : List (String × String)) (df duck : ℕ → Except PyErr ℚ)
    (num_rows : ℕ) : ℕ → List StringFunction → Except PyErr (List BenchmarkResult)
  | _, [] => Except.ok []
  | k, f :: rest => do
      let _df_expr ← PyFormat.format f.datafusion_expr cols
      let _duck_expr ← PyFormat.format f.duckdb_expr cols
      let df_time := pyTry (df k)
      let duck_time := pyTry (duck k)
      let results ← run_benchmarks_go cols df duck num_rows (k + 1) rest
      Except.ok (⟨f.name, df_time, duck_time, num_rows⟩ :: results)

/-- `run_benchmarks` of `microbenchmarks.py` (lines 170-235), with the engine
work abstracted into the two per-case outcome oracles: the loop runs over
`STRING_FUNCTIONS` with the single binding `col = 'str_col'` (line 198). -/
def run_benchmarks (df duck : ℕ → Except PyErr ℚ) (num_rows : ℕ) :
    Except PyErr (List BenchmarkResult) :=
  run_benchmarks_go [("col", "str_col")] df duck num_rows 0 STRING_FUNCTIONS

end Microbenchmarks

namespace Microbenchmarks

/-- Wall-clock environment for one call to a per-engine benchmark function.
`time.perf_counter` is modelled as a monotonic clock value threaded through the
code; every statement that takes real time advances it.  `run_time j` is the
duration (in seconds) of the `j`-th query-execution call of this benchmark call
(warm-up calls first), `loop_overhead i` the time spent between entering the
`i`-th timed iteration and the `start` reading, and `constr_time` the time the
f-string query construction takes before the loops. -/
structure TimedEnv where
  constr_time : ℚ
  run_time : ℕ → ℚ
  loop_overhead : ℕ → ℚ

/-- The outcome of one benchmark call: its return value (or the exception it
raises), the queries executed in order, and the clock at exit. -/
structure BenchOutcome where
  result : Except PyErr ℚ
  calls : List String
  clock : ℚ

/-- The warm-up loop (`microbenchmarks.py` lines 134-136): `warmup` executions
of the query with no clock reading; `j` is the global call index. -/
def warmup_loop (env : TimedEnv) (query : String) : ℕ → ℕ → ℚ → ℚ × List String
  | _, 0, t => (t, [])
  | j, w + 1, t =>
      let t1 := t + env.run_time j
      let (t2, calls) := warmup_loop env query (j + 1) w t1
      (t2, query :: calls)

/-- The timed loop (`microbenchmarks.py` lines 139-144): per iteration,
`start = time.perf_counter()`, one execution, `end = time.perf_counter()`,
`times.append((end - start) * 1000)`.  Returns the final clock, the `times`
list, and the executed queries; `j` is the global call index. -/
def timed_loop (env : TimedEnv) (query : String) : ℕ → ℕ → ℚ → ℚ × List ℚ × List String
  | _, 0, t => (t, [], [])
  | j, r + 1, t =>
      let start := t + env.loop_overhead j
      let finish := start + env.run_time j
      let (t2, times, calls) := timed_loop env query (j + 1) r finish
      (t2, (finish - start) * 1000 :: times, query :: calls)

/-- `benchmark_datafusion` (`microbenchmarks.py` lines 129-146): build
`SELECT {expr} FROM test_data`, run `warmup` un-timed executions, then
`iterations` timed ones, and return `sum(times) / len(times)` (Python raises
`ZeroDivisionError` when `len(times) == 0`). -/
def benchmark_datafusion (env : TimedEnv) (expr : String) (warmup iterations : ℕ)
    (t0 : ℚ) : BenchOutcome :=
  let query := "SELECT " ++ expr ++ " FROM test_data"
  let t1 := t0 + env.constr_time
  let (t2, warm_calls) := warmup_loop env query 0 warmup t1
  let (t3, times, timed_calls) := timed_loop env query warmup iterations t2
  let result : Except PyErr ℚ :=
    if times.length = 0 then Except.error PyErr.zeroDivisionError
    else Except.ok (times.sum / (times.length : ℚ))
  ⟨result, warm_calls ++ timed_calls, t3⟩

/-- `benchmark_duckdb` (`microbenchmarks.py` lines 149-167): same structure as
`benchmark_datafusion`, with `conn.execute(query).fetch_arrow_table()` as the
execution call. -/
def benchmark_duckdb (env : TimedEnv) (expr : String) (warmup iterations : ℕ)
    (t0 : ℚ) : BenchOutcome :=
  let query := "SELECT " ++ expr ++ " FROM test_data"
  let t1 := t0 + env.constr_time
  let (t2, warm_calls) := warmup_loop env query 0 warmup t1
  let (t3, times, timed_calls) := timed_loop env query warmup iterations t2
  let result : Except PyErr ℚ :=
    if times.length = 0 then Except.error PyErr.zeroDivisionError
    else Except.ok (times.sum / (times.length : ℚ))
  ⟨result, warm_calls ++ timed_calls, t3⟩

/-- Decimal digit value of a character, as `int()` reads one. -/
def py_digit? (c : Char) : Option ℕ :=
  if 48 ≤ c.toNat ∧ c.toNat ≤ 57 then some (c.toNat - 48) else none

/-- Accumulate the decimal value of a digit string. -/
def py_digits_val : List Char → ℕ → Option ℕ
  | [], acc => some acc
  | c :: rest, acc =>
      match py_digit? c with
      | none => none
      | some d => py_digits_val rest (acc * 10 + d)

/-- The `argparse` converter of the `--iterations` flag (`microbenchmarks.py`
lines 312-315): `type=int` — Python's `int()` on an optional sign and decimal
digits — with no range restriction, so `"0"` is accepted. -/
def argparse_int (s : String) : Option ℤ :=
  match s.toList with
  | [] => none
  | '-' :: rest =>
      match rest with
      | [] => none
      | _ => (py_digits_val rest 0).map (fun n => -(n : ℤ))
  | cs => (py_digits_val cs 0).map (fun n => (n : ℤ))

/-- `datafusion.SessionConfig` as configured by this harness: only the
target-partitions setting matters here; `none` means the engine default
(one partition per CPU core, not single-partition). -/
structure SessionConfig where
  target_partitions : Option ℕ
deriving DecidableEq, Repr

/-- A `datafusion.SessionContext` with its registered parquet tables
(table name, file path). -/
structure SessionContext where
  config : SessionConfig
  registered_parquet : List (String × String)
deriving DecidableEq, Repr

/-- A `duckdb` connection: `threads` is the explicit thread-count setting
(`none` means the engine default, one thread per core), `views` the views
created on it (view name, defining query). -/
structure DuckDBPyConnection where
  threads : Option ℕ
  views : List (String × String)
deriving DecidableEq, Repr

/-- `setup_datafusion` (`microbenchmarks.py` lines 114-119): a context with
`with_target_partitions(1)` and the parquet file registered as `test_data`. -/
def setup_datafusion (parquet_path : String) : SessionContext :=
  ⟨⟨some 1⟩, [("test_data", parquet_path)]⟩

/-- `setup_duckdb` (`microbenchmarks.py` lines 122-126): an in-memory connection
with `config={'threads': 1}` and a view `test_data` over the parquet file. -/
def setup_duckdb (parquet_path : String) : DuckDBPyConnection :=
  ⟨some 1, [("test_data", "SELECT * FROM read_parquet('" ++ parquet_path ++ "')")]⟩

end Microbenchmarks

/-- The interface of Python's global `random` module as used by the data
generators, made explicit as state passing: `seed n` is the canonical generator
state after `random.seed(n)`; `randint s a b` draws an integer in `[a, b]`;
`choices s population k` draws `k` elements with replacement.  The draw
functions are abstract but deterministic: the same state yields the same draw,
which is exactly what CPython's Mersenne-Twister implementation guarantees. -/
structure RandomModule (σ : Type) where
  seed : ℕ → σ
  randint : σ → ℤ → ℤ → ℤ × σ
  choices : σ → List Char → ℕ → List Char × σ

/-- `string.ascii_lowercase`. -/
def ascii_lowercase : List Char := "abcdefghijklmnopqrstuvwxyz".toList

/-- `string.ascii_uppercase`. -/
def ascii_uppercase : List Char := "ABCDEFGHIJKLMNOPQRSTUVWXYZ".toList

/-- `string.ascii_letters`. -/
def ascii_letters : List Char := ascii_lowercase ++ ascii_uppercase

/-- `string.digits`. -/
def string_digits : List Char := "0123456789".toList

/-- Whether a generated column is built as `pa.string()` or `pa.string_view()`. -/
inductive StrType where
  | string
  | string_view
deriving DecidableEq, Repr

/-- The single-column `pyarrow` table produced by the string-suite generators. -/
structure PATable where
  column_name : String
  values : List String
  str_type : StrType
deriving DecidableEq, Repr

namespace Suites

namespace strings

/-- The body of the row loop of `generate_data` (`suites/strings.py` lines 47-60):
one string per row index `i`, patterns rotating on `i % 5`; patterns 1 and 4
consume the pseudo-random stream. -/
def gen_row (R : RandomModule σ) (i : ℕ) (s : σ) : String × σ :=
  if i % 5 = 0 then ("  test_" ++ toString (i % 1000) ++ "  ", s)
  else if i % 5 = 1 then
    let (cs, s1) := R.choices s ascii_lowercase 20
    (String.mk cs, s1)
  else if i % 5 = 2 then ("TestData_" ++ toString i ++ "_Value", s)
  else if i % 5 = 3 then ("hello world " ++ toString (i % 100) ++ " data", s)
  else
    let (len, s1) := R.randint s 5 50
    let (cs, s2) := R.choices s1 (ascii_letters ++ string_digits ++ [' ']) len.toNat
    (String.mk cs, s2)

/-- The row loop itself, threading the generator state. -/
def gen_rows (R : RandomModule σ) : List ℕ → σ → List String × σ
  | [], s => ([], s)
  | i :: rest, s =>
      let (v, s1) := gen_row R i s
      let (vs, s2) := gen_rows R rest s1
      (v :: vs, s2)

/-- `generate_data` (`suites/strings.py` lines 42-65): `random.seed(42)` first
("For reproducibility"), then the row loop, then the table with column
`str_col` typed by `use_string_view`.  The function takes and returns the
ambient `random`-module state, which `random.seed` overwrites. -/
def generate_data (R : RandomModule σ) (num_rows : ℕ) (use_string_view : Bool)
    (state0 : σ) : PATable × σ :=
  let s := R.seed 42
  let (strings_data, s1) := gen_rows R (List.range num_rows) s
  (⟨"str_col", strings_data,
    if use_string_view then StrType.string_view else StrType.string⟩, s1)

end strings

end Suites

namespace Microbenchmarks

/-- `generate_test_data` (`microbenchmarks.py` lines 76-111): its body is
line-for-line the loop of `suites/strings.py`'s `generate_data` (same patterns,
same `random.seed(42)` first), so the embedding reuses the same row loop. -/
def generate_test_data (R : RandomModule σ) (num_rows : ℕ) (use_string_view : Bool)
    (state0 : σ) : PATable × σ :=
  let s := R.seed 42
  let (strings, s1) := Suites.strings.gen_rows R (List.range num_rows) s
  (⟨"str_col", strings,
    if use_string_view then StrType.string_view else StrType.string⟩, s1)

end Microbenchmarks

namespace Suites

/-- The `Suite` dataclass (`suites/__init__.py` lines 16-23).  The
`generate_data` member is a function reference; only the structural fields
that the registry claims depend on are carried here.  Placeholder `{col}` in a
suite's templates is bound to `column_name` at expansion time. -/
structure Suite where
  name : String
  description : String
  column_name : String
  functions : List BenchmarkFunction
deriving DecidableEq, Repr

namespace strings

/-- `suites/strings.py` lines 11-39: the `FUNCTIONS` list (identical templates
to `microbenchmarks.py`'s `STRING_FUNCTIONS`). -/
def FUNCTIONS : List BenchmarkFunction := Microbenchmarks.STRING_FUNCTIONS

/-- `suites/strings.py` lines 68-74. -/
def SUITE : Suite :=
  ⟨"strings", "String function benchmarks", "str_col", FUNCTIONS⟩

end strings

namespace temporal

/-- `suites/temporal.py` lines 11-42. -/
def FUNCTIONS : List BenchmarkFunction := [
  ⟨"year", "year({col})", "year({col})"⟩,
  ⟨"month", "month({col})", "month({col})"⟩,
  ⟨"day", "day({col})", "day({col})"⟩,
  ⟨"hour", "hour({col})", "hour({col})"⟩,
  ⟨"minute", "minute({col})", "minute({col})"⟩,
  ⟨"second", "second({col})", "second({col})"⟩,
  ⟨"week", "week({col})", "week({col})"⟩,
  ⟨"quarter", "quarter({col})", "quarter({col})"⟩,
  ⟨"day_of_week", "extract(dow from {col})", "dayofweek({col})"⟩,
  ⟨"day_of_year", "extract(doy from {col})", "dayofyear({col})"⟩,
  ⟨"date_trunc_day", "date_trunc('day', {col})", "date_trunc('day', {col})"⟩,
  ⟨"date_trunc_month", "date_trunc('month', {col})", "date_trunc('month', {col})"⟩,
  ⟨"date_trunc_year", "date_trunc('year', {col})", "date_trunc('year', {col})"⟩,
  ⟨"date_trunc_hour", "date_trunc('hour', {col})", "date_trunc('hour', {col})"⟩,
  ⟨"date_add_days", "{col} + interval '7 days'", "{col} + interval '7 days'"⟩,
  ⟨"date_sub_days", "{col} - interval '7 days'", "{col} - interval '7 days'"⟩,
  ⟨"date_add_months", "{col} + interval '1 month'", "{col} + interval '1 month'"⟩,
  ⟨"to_char", "to_char({col}, '%Y-%m-%d')", "strftime({col}, '%Y-%m-%d')"⟩,
  ⟨"date_part_hour", "date_part('hour', {col})", "date_part('hour', {col})"⟩,
  ⟨"date_part_minute", "date_part('minute', {col})", "date_part('minute', {col})"⟩,
  ⟨"is_past", "{col} < now()", "{col} < now()"⟩]

/-- `suites/temporal.py` lines 87-93. -/
def SUITE : Suite :=
  ⟨"temporal", "Date/time function benchmarks", "ts_col", FUNCTIONS⟩

end temporal

namespace numeric

/-- `suites/numeric.py` lines 10-68. -/
def FUNCTIONS : List BenchmarkFunction := [
  ⟨"abs", "abs({col})", "abs({col})"⟩,
  ⟨"ceil", "ceil({col})", "ceil({col})"⟩,
  ⟨"floor", "floor({col})", "floor({col})"⟩,
  ⟨"round", "round({col}, 2)", "round({col}, 2)"⟩,
  ⟨"trunc", "trunc({col})", "trunc({col})"⟩,
  ⟨"signum", "signum({col})", "sign({col})"⟩,
  ⟨"sqrt", "sqrt(abs({col}))", "sqrt(abs({col}))"⟩,
  ⟨"cbrt", "cbrt({col})", "cbrt({col})"⟩,
  ⟨"power", "power({col}, 2)", "power({col}, 2)"⟩,
  ⟨"exp", "exp({col} / 100)", "exp({col} / 100)"⟩,
  ⟨"ln", "ln(abs({col}) + 1)", "ln(abs({col}) + 1)"⟩,
  ⟨"log10", "log10(abs({col}) + 1)", "log10(abs({col}) + 1)"⟩,
  ⟨"log2", "log2(abs({col}) + 1)", "log2(abs({col}) + 1)"⟩,
  ⟨"log", "log(2, abs({col}) + 1)", "log(2, abs({col}) + 1)"⟩,
  ⟨"sin", "sin({col})", "sin({col})"⟩,
  ⟨"cos", "cos({col})", "cos({col})"⟩,
  ⟨"tan", "tan({col})", "tan({col})"⟩,
  ⟨"asin", "asin(sin({col}))", "asin(sin({col}))"⟩,
  ⟨"acos", "acos(cos({col}))", "acos(cos({col}))"⟩,
  ⟨"atan", "atan({col})", "atan({col})"⟩,
  ⟨"atan2", "atan2({col}, {col} + 1)", "atan2({col}, {col} + 1)"⟩,
  ⟨"sinh", "sinh({col} / 100)", "sinh({col} / 100)"⟩,
  ⟨"cosh", "cosh({col} / 100)", "cosh({col} / 100)"⟩,
  ⟨"tanh", "tanh({col})", "tanh({col})"⟩,
  ⟨"degrees", "degrees({col})", "degrees({col})"⟩,
  ⟨"radians", "radians({col})", "radians({col})"⟩,
  ⟨"pi", "pi() * {col}", "pi() * {col}"⟩,
  ⟨"mod", "CAST({col} AS BIGINT) % 7", "CAST({col} AS BIGINT) % 7"⟩,
  ⟨"gcd", "gcd(CAST({col} AS BIGINT), 12)", "gcd(CAST({col} AS BIGINT), 12)"⟩,
  ⟨"lcm", "lcm(CAST(abs({col}) AS BIGINT) % 1000 + 1, 12)", "lcm(CAST(abs({col}) AS BIGINT) % 1000 + 1, 12)"⟩,
  ⟨"factorial", "factorial(CAST(abs({col}) AS BIGINT) % 20)", "factorial(CAST(abs({col}) AS INTEGER) % 20)"⟩,
  ⟨"greatest", "greatest({col}, {col} * 2, 0)", "greatest({col}, {col} * 2, 0)"⟩,
  ⟨"least", "least({col}, {col} * 2, 0)", "least({col}, {col} * 2, 0)"⟩,
  ⟨"coalesce", "coalesce({col}, 0)", "coalesce({col}, 0)"⟩,
  ⟨"nullif", "nullif({col}, 0)", "nullif({col}, 0)"⟩,
  ⟨"bit_and", "CAST({col} AS BIGINT) & 255", "CAST({col} AS BIGINT) & 255"⟩,
  ⟨"bit_or", "CAST({col} AS BIGINT) | 255", "CAST({col} AS BIGINT) | 255"⟩,
  ⟨"bit_xor", "CAST({col} AS BIGINT) ^ 255", "xor(CAST({col} AS BIGINT), 255)"⟩]

/-- `suites/numeric.py` lines 99-105. -/
def SUITE : Suite :=
  ⟨"numeric", "Numeric function benchmarks", "num_col", FUNCTIONS⟩

end numeric

/-- The registry of `suites/__init__.py` lines 32-36: an insertion-ordered dict,
modelled as an association list.  `conditional.py` exists in the package but is
neither imported nor registered. -/
def SUITES : List (String × Suite) := [
  ("strings", strings.SUITE),
  ("temporal", temporal.SUITE),
  ("numeric", numeric.SUITE)]

/-- `', '.join(SUITES.keys())` of `suites/__init__.py` line 43. -/
def available : String :=
  String.intercalate ", " (SUITES.map Prod.fst)

/-- `get_suite` (`suites/__init__.py` lines 39-44): raises
`ValueError(f"Unknown suite: {name}. Available: {available}")` when `name` is
not a key of the registry, else returns the suite. -/
def get_suite (name : String) : Except PyErr Suite :=
  match SUITES.find? (fun p => p.1 = name) with
  | none => Except.error (PyErr.valueError
      ("Unknown suite: " ++ name ++ ". Available: " ++ available))
  | some p => Except.ok p.2

/-- `list_suites` (`suites/__init__.py` lines 47-49): the registry's keys in
insertion order. -/
def list_suites : List String :=
  SUITES.map Prod.fst

end Suites

namespace StringFunctionsBenchmark

/-- `string_functions_benchmark.py` lines 53-81: the string suite's functions,
placeholders written `{str_col}`. -/
def STRING_FUNCTIONS : List BenchmarkFunction := [
  ⟨"trim", "trim({str_col})", "trim({str_col})"⟩,
  ⟨"ltrim", "ltrim({str_col})", "ltrim({str_col})"⟩,
  ⟨"rtrim", "rtrim({str_col})", "rtrim({str_col})"⟩,
  ⟨"lower", "lower({str_col})", "lower({str_col})"⟩,
  ⟨"upper", "upper({str_col})", "upper({str_col})"⟩,
  ⟨"length", "length({str_col})", "length({str_col})"⟩,
  ⟨"char_length", "char_length({str_col})", "length({str_col})"⟩,
  ⟨"reverse", "reverse({str_col})", "reverse({str_col})"⟩,
  ⟨"repeat_3", "repeat({str_col}, 3)", "repeat({str_col}, 3)"⟩,
  ⟨"concat", "concat({str_col}, {str_col})", "concat({str_col}, {str_col})"⟩,
  ⟨"concat_ws", "concat_ws('-', {str_col}, {str_col})", "concat_ws('-', {str_col}, {str_col})"⟩,
  ⟨"substring_1_5", "substring({str_col}, 1, 5)", "substring({str_col}, 1, 5)"⟩,
  ⟨"left_5", "left({str_col}, 5)", "left({str_col}, 5)"⟩,
  ⟨"right_5", "right({str_col}, 5)", "right({str_col}, 5)"⟩,
  ⟨"lpad_20", "lpad({str_col}, 20, '*')", "lpad({str_col}, 20, '*')"⟩,
  ⟨"rpad_20", "rpad({str_col}, 20, '*')", "rpad({str_col}, 20, '*')"⟩,
  ⟨"replace", "replace({str_col}, 'a', 'X')", "replace({str_col}, 'a', 'X')"⟩,
  ⟨"translate", "translate({str_col}, 'aeiou', '12345')", "translate({str_col}, 'aeiou', '12345')"⟩,
  ⟨"ascii", "ascii({str_col})", "ascii({str_col})"⟩,
  ⟨"md5", "md5({str_col})", "md5({str_col})"⟩,
  ⟨"sha256", "sha256({str_col})", "sha256({str_col})"⟩,
  ⟨"btrim", "btrim({str_col}, ' ')", "trim({str_col}, ' ')"⟩,
  ⟨"split_part", "split_part({str_col}, ' ', 1)", "split_part({str_col}, ' ', 1)"⟩,
  ⟨"starts_with", "starts_with({str_col}, 'test')", "starts_with({str_col}, 'test')"⟩,
  ⟨"ends_with", "ends_with({str_col}, 'data')", "ends_with({str_col}, 'data')"⟩,
  ⟨"strpos", "strpos({str_col}, 'e')", "strpos({str_col}, 'e')"⟩,
  ⟨"regexp_replace", "regexp_replace({str_col}, '[aeiou]', '*')", "regexp_replace({str_col}, '[aeiou]', '*', 'g')"⟩]

/-- `string_functions_benchmark.py` lines 113-156. -/
def TEMPORAL_FUNCTIONS : List BenchmarkFunction := [
  ⟨"extract_year", "extract(YEAR FROM {ts_col})", "extract(YEAR FROM {ts_col})"⟩,
  ⟨"extract_month", "extract(MONTH FROM {ts_col})", "extract(MONTH FROM {ts_col})"⟩,
  ⟨"extract_day", "extract(DAY FROM {ts_col})", "extract(DAY FROM {ts_col})"⟩,
  ⟨"extract_hour", "extract(HOUR FROM {ts_col})", "extract(HOUR FROM {ts_col})"⟩,
  ⟨"extract_minute", "extract(MINUTE FROM {ts_col})", "extract(MINUTE FROM {ts_col})"⟩,
  ⟨"extract_second", "extract(SECOND FROM {ts_col})", "extract(SECOND FROM {ts_col})"⟩,
  ⟨"extract_dow", "extract(DOW FROM {ts_col})", "extract(DOW FROM {ts_col})"⟩,
  ⟨"extract_doy", "extract(DOY FROM {ts_col})", "extract(DOY FROM {ts_col})"⟩,
  ⟨"extract_week", "extract(WEEK FROM {ts_col})", "extract(WEEK FROM {ts_col})"⟩,
  ⟨"extract_quarter", "extract(QUARTER FROM {ts_col})", "extract(QUARTER FROM {ts_col})"⟩,
  ⟨"extract_epoch", "extract(EPOCH FROM {ts_col})", "extract(EPOCH FROM {ts_col})"⟩,
  ⟨"date_trunc_year", "date_trunc('year', {ts_col})", "date_trunc('year', {ts_col})"⟩,
  ⟨"date_trunc_quarter", "date_trunc('quarter', {ts_col})", "date_trunc('quarter', {ts_col})"⟩,
  ⟨"date_trunc_month", "date_trunc('month', {ts_col})", "date_trunc('month', {ts_col})"⟩,
  ⟨"date_trunc_week", "date_trunc('week', {ts_col})", "date_trunc('week', {ts_col})"⟩,
  ⟨"date_trunc_day", "date_trunc('day', {ts_col})", "date_trunc('day', {ts_col})"⟩,
  ⟨"date_trunc_hour", "date_trunc('hour', {ts_col})", "date_trunc('hour', {ts_col})"⟩,
  ⟨"date_trunc_minute", "date_trunc('minute', {ts_col})", "date_trunc('minute', {ts_col})"⟩,
  ⟨"date_trunc_second", "date_trunc('second', {ts_col})", "date_trunc('second', {ts_col})"⟩,
  ⟨"date_part_year", "date_part('year', {ts_col})", "date_part('year', {ts_col})"⟩,
  ⟨"date_part_month", "date_part('month', {ts_col})", "date_part('month', {ts_col})"⟩,
  ⟨"date_part_day", "date_part('day', {ts_col})", "date_part('day', {ts_col})"⟩,
  ⟨"date_part_hour", "date_part('hour', {ts_col})", "date_part('hour', {ts_col})"⟩,
  ⟨"date_part_dow", "date_part('dow', {ts_col})", "date_part('dow', {ts_col})"⟩,
  ⟨"date_part_week", "date_part('week', {ts_col})", "date_part('week', {ts_col})"⟩,
  ⟨"add_days", "{ts_col} + INTERVAL '7' DAY", "{ts_col} + INTERVAL '7 days'"⟩,
  ⟨"sub_days", "{ts_col} - INTERVAL '7' DAY", "{ts_col} - INTERVAL '7 days'"⟩,
  ⟨"add_months", "{ts_col} + INTERVAL '1' MONTH", "{ts_col} + INTERVAL '1 month'"⟩,
  ⟨"add_hours", "{ts_col} + INTERVAL '12' HOUR", "{ts_col} + INTERVAL '12 hours'"⟩,
  ⟨"add_minutes", "{ts_col} + INTERVAL '30' MINUTE", "{ts_col} + INTERVAL '30 minutes'"⟩,
  ⟨"to_char_date", "to_char({ts_col}, '%Y-%m-%d')", "strftime({ts_col}, '%Y-%m-%d')"⟩,
  ⟨"to_char_datetime", "to_char({ts_col}, '%Y-%m-%d %H:%M:%S')", "strftime({ts_col}, '%Y-%m-%d %H:%M:%S')"⟩,
  ⟨"to_char_time", "to_char({ts_col}, '%H:%M:%S')", "strftime({ts_col}, '%H:%M:%S')"⟩]

/-- `string_functions_benchmark.py` lines 196-347.  Both engines share each
template text here, so each entry's two templates are written once and reused. -/
def CONDITIONAL_TEMPLATES : List (String × String) := [
  ("case_2_branches", "CASE WHEN {int_col} > 50 THEN 'high' ELSE 'low' END"),
  ("case_3_branches", "CASE WHEN {int_col} > 66 THEN 'high' WHEN {int_col} > 33 THEN 'medium' ELSE 'low' END"),
  ("case_5_branches", "CASE WHEN {int_col} > 80 THEN 'A' WHEN {int_col} > 60 THEN 'B' WHEN {int_col} > 40 THEN 'C' WHEN {int_col} > 20 THEN 'D' ELSE 'F' END"),
  ("case_10_branches", "CASE WHEN {int_col} >= 90 THEN 'A+' WHEN {int_col} >= 85 THEN 'A' WHEN {int_col} >= 80 THEN 'A-' WHEN {int_col} >= 75 THEN 'B+' WHEN {int_col} >= 70 THEN 'B' WHEN {int_col} >= 65 THEN 'B-' WHEN {int_col} >= 60 THEN 'C+' WHEN {int_col} >= 55 THEN 'C' WHEN {int_col} >= 50 THEN 'C-' ELSE 'F' END"),
  ("case_simple_match", "CASE {category} WHEN 'A' THEN 1 WHEN 'B' THEN 2 WHEN 'C' THEN 3 ELSE 0 END"),
  ("case_simple_match_10", "CASE {category} WHEN 'A' THEN 1 WHEN 'B' THEN 2 WHEN 'C' THEN 3 WHEN 'D' THEN 4 WHEN 'E' THEN 5 WHEN 'F' THEN 6 WHEN 'G' THEN 7 WHEN 'H' THEN 8 WHEN 'I' THEN 9 WHEN 'J' THEN 10 ELSE 0 END"),
  ("case_multi_condition", "CASE WHEN {int_col} > 50 AND {float_col} > 0.5 THEN 'both_high' WHEN {int_col} > 50 OR {float_col} > 0.5 THEN 'one_high' ELSE 'both_low' END"),
  ("case_nested_2_levels", "CASE WHEN {int_col} > 50 THEN CASE WHEN {float_col} > 0.5 THEN 'high_high' ELSE 'high_low' END ELSE CASE WHEN {float_col} > 0.5 THEN 'low_high' ELSE 'low_low' END END"),
  ("case_nested_3_levels", "CASE WHEN {int_col} > 66 THEN CASE WHEN {float_col} > 0.66 THEN CASE WHEN {int_col2} > 66 THEN 'HHH' ELSE 'HHL' END ELSE 'HL' END WHEN {int_col} > 33 THEN 'M' ELSE 'L' END"),
  ("case_expr_result", "CASE WHEN {int_col} > 50 THEN {int_col} * 2 + {float_col} ELSE {int_col} / 2 - {float_col} END"),
  ("case_string_concat", "CASE WHEN {int_col} > 50 THEN concat({str_col}, '_high') ELSE concat({str_col}, '_low') END"),
  ("coalesce_2", "COALESCE({nullable_col}, 0)"),
  ("coalesce_3", "COALESCE({nullable_col}, {nullable_col2}, 0)"),
  ("coalesce_5", "COALESCE({nullable_col}, {nullable_col2}, {nullable_col}, {nullable_col2}, 0)"),
  ("nullif_int", "NULLIF({int_col}, 50)"),
  ("nullif_string", "NULLIF({category}, 'A')"),
  ("case_null_check", "CASE WHEN {nullable_col} IS NULL THEN 'missing' WHEN {nullable_col} > 50 THEN 'high' ELSE 'low' END"),
  ("case_null_propagation", "CASE WHEN {int_col} > 50 THEN {nullable_col} ELSE {nullable_col2} END"),
  ("case_bucketing", "CASE WHEN {float_col} < 0.1 THEN 0 WHEN {float_col} < 0.2 THEN 1 WHEN {float_col} < 0.3 THEN 2 WHEN {float_col} < 0.4 THEN 3 WHEN {float_col} < 0.5 THEN 4 WHEN {float_col} < 0.6 THEN 5 WHEN {float_col} < 0.7 THEN 6 WHEN {float_col} < 0.8 THEN 7 WHEN {float_col} < 0.9 THEN 8 ELSE 9 END"),
  ("case_range_lookup", "CASE WHEN {int_col} BETWEEN 0 AND 10 THEN 'tier1' WHEN {int_col} BETWEEN 11 AND 25 THEN 'tier2' WHEN {int_col} BETWEEN 26 AND 50 THEN 'tier3' WHEN {int_col} BETWEEN 51 AND 75 THEN 'tier4' ELSE 'tier5' END"),
  ("case_complex_business", "CASE WHEN {category} = 'A' AND {int_col} > 80 THEN 'premium_a' WHEN {category} = 'A' THEN 'standard_a' WHEN {category} = 'B' AND {float_col} > 0.7 THEN 'premium_b' WHEN {category} = 'B' THEN 'standard_b' WHEN {category} IN ('C', 'D', 'E') THEN 'bulk' ELSE 'other' END"),
  ("case_boolean_result", "CASE WHEN {int_col} > 50 THEN TRUE ELSE FALSE END"),
  ("greatest_2", "GREATEST({int_col}, {int_col2})"),
  ("least_2", "LEAST({int_col}, {int_col2})"),
  ("greatest_3", "GREATEST({int_col}, {int_col2}, {nullable_col})")]

/-- `CONDITIONAL_FUNCTIONS` as `BenchmarkFunction` entries (in every entry the
DataFusion and DuckDB templates are the same string). -/
def CONDITIONAL_FUNCTIONS : List BenchmarkFunction :=
  CONDITIONAL_TEMPLATES.map (fun p => ⟨p.1, p.2, p.2⟩)

/-- One value of the `SUITES` dict of `string_functions_benchmark.py`
lines 383-410: the display name, the function list and the `columns` keyword
bindings used by `func.datafusion_expr.format(**columns)`. -/
structure SuiteDict where
  name : String
  functions : List BenchmarkFunction
  columns : List (String × String)
deriving DecidableEq, Repr

/-- The `SUITES` registry dict of `string_functions_benchmark.py`
lines 383-410, as an insertion-ordered association list. -/
def SUITES : List (String × SuiteDict) := [
  ("string", ⟨"String Functions", STRING_FUNCTIONS, [("str_col", "str_col")]⟩),
  ("temporal", ⟨"Temporal Functions", TEMPORAL_FUNCTIONS, [("ts_col", "ts_col")]⟩),
  ("conditional", ⟨"Conditional Expressions", CONDITIONAL_FUNCTIONS,
    [("int_col", "int_col"), ("int_col2", "int_col2"), ("float_col", "float_col"),
     ("nullable_col", "nullable_col"), ("nullable_col2", "nullable_col2"),
     ("category", "category"), ("str_col", "str_col")]⟩)]

/-- Python dict assignment `d[k] = v` on the registry: replaces in place when
the key exists, otherwise appends.  This is the only "registration" operation
the sources have; it performs no validation of the suite. -/
def dict_set (reg : List (String × SuiteDict)) (name : String) (s : SuiteDict) :
    List (String × SuiteDict) :=
  if reg.any (fun p => p.1 = name) then
    reg.map (fun p => if p.1 = name then (name, s) else p)
  else reg ++ [(name, s)]

/-- `setup_datafusion` of `string_functions_benchmark.py` lines 417-421: a
plain `datafusion.SessionContext()` — no `with_target_partitions(1)`, so the
engine keeps its default (multi-core) partitioning — with the parquet file
registered as `test_data`. -/
def setup_datafusion (parquet_path : String) : Microbenchmarks.SessionContext :=
  ⟨⟨none⟩, [("test_data", parquet_path)]⟩

/-- `setup_duckdb` of `string_functions_benchmark.py` lines 424-428: a plain
`duckdb.connect(':memory:')` — no `threads` configuration — with a view
`test_data` over the parquet file. -/
def setup_duckdb (parquet_path : String) : Microbenchmarks.DuckDBPyConnection :=
  ⟨none, [("test_data", "SELECT * FROM read_parquet('" ++ parquet_path ++ "')")]⟩

end StringFunctionsBenchmark

/-- Template completeness for one case: every placeholder of either engine's
template has a binding among the given column bindings. -/
def placeholders_bound (cols : List (String × String)) (f : BenchmarkFunction) : Bool :=
  (PyFormat.placeholders f.datafusion_expr ++ PyFormat.placeholders f.duckdb_expr).all
    (fun ph => (PyFormat.lookup cols ph).isSome)

/-- Template completeness for one entry of the `string_functions_benchmark.py`
registry, against its own `columns` dict. -/
def suite_complete (s : StringFunctionsBenchmark.SuiteDict) : Bool :=
  s.functions.all (placeholders_bound s.columns)

/-- Template completeness for one suite of the `suites` package, whose single
implicit binding is `col ↦ column_name`. -/
def suite_complete_pkg (s : Suites.Suite) : Bool :=
  s.functions.all (placeholders_bound [("col", s.column_name)])

/-- A malformed suite used to probe registration: its only template references
`{missing_col}` and its `columns` dict is empty. -/
def bad_suite : StringFunctionsBenchmark.SuiteDict :=
  ⟨"Bad Suite", [⟨"broken", "upper({missing_col})", "upper({missing_col})"⟩], []⟩

namespace GenerateComparison

/-- `np.median` of a sample list: sort ascending; middle element for odd
length, mean of the two middle elements for even length; `none` models the
NaN that NumPy returns on an empty array. -/
def np_median (xs : List ℚ) : Option ℚ :=
  let sorted := List.insertionSort (fun a b => a ≤ b) xs
  if xs.length = 0 then none
  else if xs.length % 2 = 1 then sorted.get? (xs.length / 2)
  else do
    let a ← sorted.get? (xs.length / 2 - 1)
    let b ← sorted.get? (xs.length / 2)
    pure ((a + b) / 2)

/-- The query numbers `range(1, 23)` iterated by `generate_summary` and the
chart functions of `scripts/generate-comparison.py`. -/
def query_range : List ℕ :=
  (List.range 22).map (fun i => i + 1)

/-- The JSON keys the tooling reads: `str(query)` for each query number. -/
def keys_read : List String :=
  query_range.map (fun q => toString q)

/-- The accumulation loop of `generate_summary`
(`scripts/generate-comparison.py` lines 107-112):
`baseline_total += np.median(np.array(baseline[str(query)]))` and likewise for
`comparison_total`, for `query in range(1, 23)`.  A timing log is a map from
JSON key to its list of latency samples; an empty sample list makes the total
NaN (modelled as `none`). -/
def generate_summary_go (baseline comparison : String → List ℚ) :
    List ℕ → ℚ × ℚ → Option (ℚ × ℚ)
  | [], acc => some acc
  | q :: rest, acc => do
      let mb ← np_median (baseline (toString q))
      let mc ← np_median (comparison (toString q))
      generate_summary_go baseline comparison rest (acc.1 + mb, acc.2 + mc)

/-- `generate_summary`'s two aggregate totals (`baseline_total`,
`comparison_total`), which the chart then renders as the two bars. -/
def generate_summary (baseline comparison : String → List ℚ) : Option (ℚ × ℚ) :=
  generate_summary_go baseline comparison query_range (0, 0)

end GenerateComparison

/-! ## Theorems -/

/-- C5: For a fixed suite, row count and `use_string_view` flag, two
invocations of the dataset generator — from arbitrary, possibly different
prior states of the `random` module — produce identical tables (and identical
post-states), because `random.seed(42)` overwrites the incoming state before
any draw.  This holds for `suites/strings.py`'s `generate_data` and for
`microbenchmarks.py`'s `generate_test_data`. -/
theorem generate_data_deterministic {σ : Type} (R : RandomModule σ) (num_rows : ℕ)
    (use_string_view : Bool) (s0 s1 : σ) :
    Suites.strings.generate_data R num_rows use_string_view s0
      = Suites.strings.generate_data R num_rows use_string_view s1
    ∧ Microbenchmarks.generate_test_data R num_rows use_string_view s0
      = Microbenchmarks.generate_test_data R num_rows use_string_view s1 :=
  ⟨rfl, rfl⟩

/-- C4 (counterexample): registration does not validate template completeness.
`bad_suite` references the unbound placeholder `{missing_col}`, yet dict
assignment — the only registration step the sources have — succeeds and simply
stores it; the missing binding surfaces only when the template is expanded,
as a `KeyError`. -/
theorem registration_accepts_incomplete_suite :
    suite_complete bad_suite = false
    ∧ StringFunctionsBenchmark.dict_set StringFunctionsBenchmark.SUITES "bad" bad_suite
        = StringFunctionsBenchmark.SUITES ++ [("bad", bad_suite)]
    ∧ PyFormat.format "upper({missing_col})" [] = Except.error (PyErr.keyError "missing_col") :=
  ⟨by decide, by rfl, by decide⟩

/-- C4 (amended): every placeholder token appearing in any benchmark-function
template of any registered suite has a binding in that suite's column bindings —
for the `string_functions_benchmark.py` registry against its `columns` dicts,
for the `suites` package registry against the implicit `col ↦ column_name`
binding, and for `microbenchmarks.py`'s catalogue against `col = 'str_col'`.
(No registration-time check enforces this; see the counterexample.) -/
theorem registered_suites_template_complete :
    StringFunctionsBenchmark.SUITES.all (fun p => suite_complete p.2) = true
    ∧ Suites.SUITES.all (fun p => suite_complete_pkg p.2) = true
    ∧ Microbenchmarks.STRING_FUNCTIONS.all (placeholders_bound [("col", "str_col")]) = true := by
  decide

/-- C6 (counterexample): the adapters of `string_functions_benchmark.py` do not
configure single-threaded execution: `setup_datafusion` leaves the default
target-partitions and `setup_duckdb` the default thread count. -/
theorem sfb_adapters_not_single_threaded :
    ¬ (StringFunctionsBenchmark.setup_datafusion "test_data.parquet").config.target_partitions = some 1
    ∧ ¬ (StringFunctionsBenchmark.setup_duckdb "test_data.parquet").threads = some 1 := by
  decide

/-- C6 (amended): every adapter of the harness registers/views the columnar
file under the fixed table name `test_data`; the `microbenchmarks.py` adapters
additionally force single-partition / single-thread execution (`some 1`),
while the `string_functions_benchmark.py` adapters leave the engine defaults
(`none`). -/
theorem engine_adapter_configuration (parquet_path : String) :
    (Microbenchmarks.setup_datafusion parquet_path).config.target_partitions = some 1
    ∧ (Microbenchmarks.setup_datafusion parquet_path).registered_parquet
        = [("test_data", parquet_path)]
    ∧ (Microbenchmarks.setup_duckdb parquet_path).threads = some 1
    ∧ (Microbenchmarks.setup_duckdb parquet_path).views.map Prod.fst = ["test_data"]
    ∧ (StringFunctionsBenchmark.setup_datafusion parquet_path).config.target_partitions = none
    ∧ (StringFunctionsBenchmark.setup_datafusion parquet_path).registered_parquet
        = [("test_data", parquet_path)]
    ∧ (StringFunctionsBenchmark.setup_duckdb parquet_path).threads = none
    ∧ (StringFunctionsBenchmark.setup_duckdb parquet_path).views.map Prod.fst = ["test_data"] :=
  ⟨rfl, rfl, rfl, rfl, rfl, rfl, rfl, rfl⟩

/-- C8 (counterexample): the registry raises the built-in `ValueError` — the
sources define no dedicated `UnknownSuiteError` class — when the name is not
registered (its message does name the available suites). -/
theorem get_suite_unknown_raises_valueerror :
    Suites.get_suite "tpch" = Except.error (PyErr.valueError
      "Unknown suite: tpch. Available: strings, temporal, numeric") := by
  rfl

/-- C8 (amended): `get_suite name` returns the registered suite when `name` is
a key of the static registry and fails with `ValueError` — its message naming
the available suites — otherwise; `list_suites` returns the ordered sequence of
registered suite names. -/
theorem get_suite_contract :
    Suites.list_suites = ["strings", "temporal", "numeric"]
    ∧ Suites.available = "strings, temporal, numeric"
    ∧ (∀ name : String, name ∉ Suites.list_suites →
        Suites.get_suite name = Except.error (PyErr.valueError
          ("Unknown suite: " ++ name ++ ". Available: " ++ Suites.available)))
    ∧ (∀ name : String, name ∈ Suites.list_suites →
        ∃ s, Suites.get_suite name = Except.ok s ∧ (name, s) ∈ Suites.SUITES) := by
  refine ⟨rfl, rfl, ?_, ?_⟩
  · intro name h
    have hnone : Suites.SUITES.find? (fun p => p.1 = name) = none := by
      rw [List.find?_eq_none]
      intro x hx
      simp only [decide_eq_true_eq]
      intro heq
      exact h (heq ▸ List.mem_map_of_mem Prod.fst hx)
    unfold Suites.get_suite
    rw [hnone]
  · intro name h
    simp only [Suites.list_suites, Suites.SUITES, List.map, List.mem_cons,
      List.not_mem_nil, or_false] at h
    rcases h with h | h | h <;> subst h
    · exact ⟨Suites.strings.SUITE, rfl, List.Mem.head _⟩
    · exact ⟨Suites.temporal.SUITE, rfl, List.Mem.tail _ (List.Mem.head _)⟩
    · exact ⟨Suites.numeric.SUITE, rfl, List.Mem.tail _ (List.Mem.tail _ (List.Mem.head _))⟩

/-- C8 witness: the amended contract at the concrete names `"tpch"` (unknown)
and `"strings"` (registered). -/
theorem get_suite_contract_witness :
    ("tpch" ∉ Suites.list_suites)
    ∧ Suites.get_suite "tpch" = Except.error (PyErr.valueError
        ("Unknown suite: " ++ "tpch" ++ ". Available: " ++ Suites.available))
    ∧ ("strings" ∈ Suites.list_suites)
    ∧ (∃ s, Suites.get_suite "strings" = Except.ok s ∧ ("strings", s) ∈ Suites.SUITES) :=
  ⟨by decide, get_suite_contract.2.2.1 "tpch" (by decide), by decide,
    get_suite_contract.2.2.2 "strings" (by decide)⟩

/-- C1 (counterexample): over all non-NaN latency pairs the claim fails at zero
latencies, which the `BenchmarkResult` type admits (a mean of `perf_counter`
differences can be `0.0`): a `0 = 0` tie is reported as a DataFusion win
(infinite speedup), while a `1 = 1` tie is reported as a DuckDB win — so ties
are not resolved to one fixed engine — and for latencies `(1, 0)` the row
raises `ZeroDivisionError` (`1/speedup` with `speedup == 0.0`) instead of
printing any ratio. -/
theorem speedup_row_zero_latency_cex :
    Microbenchmarks.format_result_row ⟨"tie_at_zero", PFloat.fin 0, PFloat.fin 0, 1000⟩
      = Except.ok (Microbenchmarks.Row.dataRow "tie_at_zero" (PFloat.fin 0) (PFloat.fin 0)
          PFloat.inf Engine.DataFusion)
    ∧ Microbenchmarks.format_result_row ⟨"tie_at_one", PFloat.fin 1, PFloat.fin 1, 1000⟩
      = Except.ok (Microbenchmarks.Row.dataRow "tie_at_one" (PFloat.fin 1) (PFloat.fin 1)
          (PFloat.fin 1) Engine.DuckDB)
    ∧ Microbenchmarks.format_result_row ⟨"duck_zero", PFloat.fin 1, PFloat.fin 0, 1000⟩
      = Except.error PyErr.zeroDivisionError := by
  refine ⟨?_, ?_, ?_⟩ <;>
    simp [Microbenchmarks.format_result_row, Microbenchmarks.BenchmarkResult.speedup,
      PFloat.isNaN, PFloat.gtOne, PFloat.oneOver, bind, Except.bind]

/-- C1 (amended): for every `BenchmarkResult` whose two latencies are positive
finite values — the regime of genuinely timed runs; zero latencies break the
claim, see the counterexample — the report row shows a speedup ratio ≥ 1.0 and
labels as faster the engine with strictly smaller latency, a tie going
deterministically to DuckDB (the `speedup > 1` test is false at `speedup == 1`). -/
theorem speedup_row_invariant (name : String) (rows : ℕ) (a b : ℚ)
    (ha : 0 < a) (hb : 0 < b) :
    ∃ disp faster,
      Microbenchmarks.format_result_row ⟨name, PFloat.fin a, PFloat.fin b, rows⟩
        = Except.ok (Microbenchmarks.Row.dataRow name (PFloat.fin a) (PFloat.fin b) disp faster)
      ∧ disp.geOne = true
      ∧ (a < b → faster = Engine.DataFusion)
      ∧ (b < a → faster = Engine.DuckDB)
      ∧ (a = b → faster = Engine.DuckDB) := by
  have ha' : a ≠ 0 := ne_of_gt ha
  have hsp : (⟨name, PFloat.fin a, PFloat.fin b, rows⟩ :
      Microbenchmarks.BenchmarkResult).speedup = PFloat.fin (b / a) := by
    simp [Microbenchmarks.BenchmarkResult.speedup, ha']
  by_cases hlt : 1 < b / a
  · have hab : a < b := (one_lt_div ha).mp hlt
    refine ⟨PFloat.fin (b / a), Engine.DataFusion, ?_, ?_, fun _ => rfl, ?_, ?_⟩
    · simp [Microbenchmarks.format_result_row, hsp, PFloat.isNaN, PFloat.gtOne, hlt]
    · simp [PFloat.geOne, le_of_lt hlt]
    · intro hba; exact absurd hab (lt_asymm hba)
    · intro heq; exact absurd hab (by rw [heq]; exact lt_irrefl b)
  · have hba : b ≤ a := (div_le_one ha).mp (le_of_not_lt hlt)
    have hdiv_pos : 0 < b / a := div_pos hb ha
    have hdiv_ne : b / a ≠ 0 := ne_of_gt hdiv_pos
    refine ⟨PFloat.fin (1 / (b / a)), Engine.DuckDB, ?_, ?_, ?_, fun _ => rfl, fun _ => rfl⟩
    · simp [Microbenchmarks.format_result_row, hsp, PFloat.isNaN, PFloat.gtOne, hlt,
        PFloat.oneOver, hdiv_ne, bind, Except.bind]
    · have h1 : (1 : ℚ) ≤ a / b := (one_le_div hb).mpr hba
      simp [PFloat.geOne, one_div_div, h1]
    · intro hab; exact absurd hab (not_lt.mpr hba)

/-- C1 witness: the amended invariant at latencies `(2, 6)`. -/
theorem speedup_row_invariant_witness :
    (0 : ℚ) < 2 ∧ (0 : ℚ) < 6
    ∧ ∃ disp faster,
      Microbenchmarks.format_result_row ⟨"upper", PFloat.fin 2, PFloat.fin 6, 1000⟩
        = Except.ok (Microbenchmarks.Row.dataRow "upper" (PFloat.fin 2) (PFloat.fin 6) disp faster)
      ∧ disp.geOne = true
      ∧ ((2 : ℚ) < 6 → faster = Engine.DataFusion)
      ∧ ((6 : ℚ) < 2 → faster = Engine.DuckDB)
      ∧ ((2 : ℚ) = 6 → faster = Engine.DuckDB) :=
  ⟨by norm_num, by norm_num,
    speedup_row_invariant "upper" 1000 2 6 (by norm_num) (by norm_num)⟩

namespace Microbenchmarks

/-- The row loop emits exactly one row per result. -/
theorem format_rows_length :
    ∀ (xs : List BenchmarkResult) (rows : List Row),
      format_rows xs = Except.ok rows → rows.length = xs.length := by
  intro xs
  induction xs with
  | nil => intro rows h; simp [format_rows] at h; simp [← h]
  | cons x rest ih =>
      intro rows h
      simp only [format_rows, bind, Except.bind] at h
      cases hx : format_result_row x with
      | error e => rw [hx] at h; exact absurd h (by simp)
      | ok row =>
          rw [hx] at h
          cases hrest : format_rows rest with
          | error e => rw [hrest] at h; exact absurd h (by simp)
          | ok rest_rows =>
              rw [hrest] at h
              cases h
              simp [ih rest_rows hrest]

/-- The row loop distributes over list append. -/
theorem format_rows_append :
    ∀ (xs ys : List BenchmarkResult) (rows : List Row),
      format_rows (xs ++ ys) = Except.ok rows →
      ∃ rx ry, format_rows xs = Except.ok rx ∧ format_rows ys = Except.ok ry
        ∧ rows = rx ++ ry := by
  intro xs
  induction xs with
  | nil => intro ys rows h; exact ⟨[], rows, rfl, h, rfl⟩
  | cons x rest ih =>
      intro ys rows h
      simp only [List.cons_append, format_rows, bind, Except.bind, List.append_eq] at h
      cases hx : format_result_row x with
      | error e => rw [hx] at h; exact absurd h (by simp)
      | ok row =>
          rw [hx] at h
          cases hrest : format_rows (rest ++ ys) with
          | error e => rw [hrest] at h; exact absurd h (by simp)
          | ok rest_rows =>
              rw [hrest] at h
              cases h
              obtain ⟨rx, ry, h1, h2, h3⟩ := ih ys rest_rows hrest
              exact ⟨row :: rx, ry, by simp [format_rows, bind, Except.bind, hx, h1],
                h2, by simp [h3]⟩

/-- Results failing `bothValid` are transparent to the summary aggregates. -/
theorem summaryOf_skips_invalid (l1 l2 : List BenchmarkResult) (r : BenchmarkResult)
    (hr : bothValid r = false) :
    summaryOf (l1 ++ r :: l2) = summaryOf (l1 ++ l2) := by
  unfold summaryOf
  simp [List.filter_append, List.filter_cons, hr]

end Microbenchmarks

/-- C3: a case with a NaN latency on either side is rendered as the explicit
error row (its cells print `ERROR`/`N/A`) rather than omitted — the report has
one row per result — and it contributes to none of the summary aggregates,
which are computed over the `bothValid` filter: inserting the failed case
anywhere leaves the functions-tested count, the win counts and the total
latency sums unchanged. -/
theorem report_error_row_and_summary_exclusion
    (r : Microbenchmarks.BenchmarkResult) (l1 l2 : List Microbenchmarks.BenchmarkResult)
    (hbad : r.datafusion_time_ms.isNaN = true ∨ r.duckdb_time_ms.isNaN = true) :
    Microbenchmarks.format_result_row r
      = Except.ok (Microbenchmarks.Row.errorRow r.function_name)
    ∧ (∀ rows, Microbenchmarks.format_rows (l1 ++ r :: l2) = Except.ok rows →
        Microbenchmarks.Row.errorRow r.function_name ∈ rows
        ∧ rows.length = l1.length + 1 + l2.length)
    ∧ Microbenchmarks.summaryOf (l1 ++ r :: l2) = Microbenchmarks.summaryOf (l1 ++ l2) := by
  have hrow : Microbenchmarks.format_result_row r
      = Except.ok (Microbenchmarks.Row.errorRow r.function_name) := by
    rcases hbad with h | h <;> simp [Microbenchmarks.format_result_row, h]
  have hvalid : Microbenchmarks.bothValid r = false := by
    rcases hbad with h | h <;> simp [Microbenchmarks.bothValid, h]
  refine ⟨hrow, ?_, Microbenchmarks.summaryOf_skips_invalid l1 l2 r hvalid⟩
  intro rows h
  obtain ⟨rx, ry, h1, h2, h3⟩ := Microbenchmarks.format_rows_append l1 (r :: l2) rows h
  have hlen := Microbenchmarks.format_rows_length (l1 ++ r :: l2) rows h
  constructor
  · simp only [Microbenchmarks.format_rows, bind, Except.bind, hrow] at h2
    cases hl2 : Microbenchmarks.format_rows l2 with
    | error e => rw [hl2] at h2; exact absurd h2 (by simp)
    | ok rz =>
        rw [hl2] at h2
        cases h2
        simp [h3]
  · rw [hlen]
    simp only [List.length_append, List.length_cons]
    omega

/-- C3 witness: a three-case run whose middle case failed on the DataFusion
side; the rendered rows contain its error row and the summary equals the
summary of the two valid cases alone. -/
theorem report_error_row_witness :
    Microbenchmarks.format_result_row ⟨"md5", PFloat.nan, PFloat.fin 3, 1000⟩
      = Except.ok (Microbenchmarks.Row.errorRow "md5")
    ∧ Microbenchmarks.Row.errorRow "md5" ∈
        [Microbenchmarks.Row.dataRow "trim" (PFloat.fin 1) (PFloat.fin 2) (PFloat.fin 2)
           Engine.DataFusion,
         Microbenchmarks.Row.errorRow "md5",
         Microbenchmarks.Row.dataRow "upper" (PFloat.fin 2) (PFloat.fin 1) (PFloat.fin 2)
           Engine.DuckDB]
    ∧ Microbenchmarks.summaryOf
        [⟨"trim", PFloat.fin 1, PFloat.fin 2, 1000⟩,
         ⟨"md5", PFloat.nan, PFloat.fin 3, 1000⟩,
         ⟨"upper", PFloat.fin 2, PFloat.fin 1, 1000⟩]
      = Microbenchmarks.summaryOf
        [⟨"trim", PFloat.fin 1, PFloat.fin 2, 1000⟩,
         ⟨"upper", PFloat.fin 2, PFloat.fin 1, 1000⟩] := by
  have h := report_error_row_and_summary_exclusion
    ⟨"md5", PFloat.nan, PFloat.fin 3, 1000⟩
    [⟨"trim", PFloat.fin 1, PFloat.fin 2, 1000⟩]
    [⟨"upper", PFloat.fin 2, PFloat.fin 1, 1000⟩]
    (Or.inl rfl)
  have hrows : Microbenchmarks.format_rows
      [⟨"trim", PFloat.fin 1, PFloat.fin 2, 1000⟩,
       ⟨"md5", PFloat.nan, PFloat.fin 3, 1000⟩,
       ⟨"upper", PFloat.fin 2, PFloat.fin 1, 1000⟩]
      = Except.ok
        [Microbenchmarks.Row.dataRow "trim" (PFloat.fin 1) (PFloat.fin 2) (PFloat.fin 2)
           Engine.DataFusion,
         Microbenchmarks.Row.errorRow "md5",
         Microbenchmarks.Row.dataRow "upper" (PFloat.fin 2) (PFloat.fin 1) (PFloat.fin 2)
           Engine.DuckDB] := by
    simp [Microbenchmarks.format_rows, Microbenchmarks.format_result_row,
      Microbenchmarks.BenchmarkResult.speedup, PFloat.isNaN, PFloat.gtOne, PFloat.oneOver,
      bind, Except.bind, one_div_one_div]
    norm_num
  exact ⟨h.1, (h.2.1 _ hrows).1, h.2.2⟩

namespace Microbenchmarks

/-- Characterization of the case loop when every template expands: it never
aborts, and produces one result per case whose engine latencies are exactly the
`pyTry`-converted outcomes of that case's two independent benchmark calls. -/
theorem run_benchmarks_go_spec (cols : List (String × String))
    (df duck : ℕ → Except PyErr ℚ) (num_rows : ℕ) :
    ∀ (funcs : List StringFunction) (k : ℕ),
      (∀ f ∈ funcs, (PyFormat.format f.datafusion_expr cols).isOk = true
        ∧ (PyFormat.format f.duckdb_expr cols).isOk = true) →
      ∃ res, run_benchmarks_go cols df duck num_rows k funcs = Except.ok res
        ∧ res.map (fun r => r.function_name) = funcs.map (fun f => f.name)
        ∧ res.map (fun r => r.datafusion_time_ms)
            = (List.range funcs.length).map (fun j => pyTry (df (k + j)))
        ∧ res.map (fun r => r.duckdb_time_ms)
            = (List.range funcs.length).map (fun j => pyTry (duck (k + j))) := by
  intro funcs
  induction funcs with
  | nil => intro k _; exact ⟨[], rfl, rfl, by simp, by simp⟩
  | cons f rest ih =>
      intro k hexp
      have hf := hexp f (List.mem_cons_self f rest)
      obtain ⟨res, hres, hnames, hdf, hduck⟩ :=
        ih (k + 1) (fun g hg => hexp g (List.mem_cons_of_mem f hg))
      cases hdfe : PyFormat.format f.datafusion_expr cols with
      | error e => rw [hdfe] at hf; exact absurd hf.1 (by simp [Except.isOk, Except.toBool])
      | ok v1 =>
      cases hdke : PyFormat.format f.duckdb_expr cols with
      | error e => rw [hdke] at hf; exact absurd hf.2 (by simp [Except.isOk, Except.toBool])
      | ok v2 =>
      have hshift : ∀ g : ℕ → PFloat,
          (List.range (f :: rest).length).map (fun j => g (k + j))
            = g k :: (List.range rest.length).map (fun j => g (k + 1 + j)) := by
        intro g
        rw [List.length_cons, List.range_succ_eq_map, List.map_cons, List.map_map]
        have harg : ((fun j => g (k + j)) ∘ Nat.succ) = fun j => g (k + 1 + j) := by
          funext j
          simp only [Function.comp_apply]
          congr 1
          omega
        rw [Nat.add_zero, harg]
      refine ⟨⟨f.name, pyTry (df k), pyTry (duck k), num_rows⟩ :: res, ?_, ?_, ?_, ?_⟩
      · simp [run_benchmarks_go, bind, Except.bind, hdfe, hdke, hres]
      · simp [hnames]
      · rw [hshift (fun j => pyTry (df j))]
        simp only [List.map_cons, hdf]
      · rw [hshift (fun j => pyTry (duck j))]
        simp only [List.map_cons, hduck]

end Microbenchmarks

/-- C2: if one engine's benchmark call raises on case `k`, the run is not
aborted: the loop still returns one result per case (so all later cases
execute), case `k`'s latency for the failing engine is the NaN sentinel, and
the other engine's latencies are exactly its own per-case outcomes — an
expression that does not mention the failing engine's outcomes at all. -/
theorem run_benchmarks_failure_isolation
    (cols : List (String × String)) (df duck : ℕ → Except PyErr ℚ) (num_rows : ℕ)
    (funcs : List StringFunction) (k : ℕ) (e : PyErr)
    (hexp : ∀ f ∈ funcs, (PyFormat.format f.datafusion_expr cols).isOk = true
        ∧ (PyFormat.format f.duckdb_expr cols).isOk = true)
    (hk : k < funcs.length) (hfail : df k = Except.error e) :
    ∃ res, Microbenchmarks.run_benchmarks_go cols df duck num_rows 0 funcs = Except.ok res
      ∧ res.length = funcs.length
      ∧ res.map (fun r => r.function_name) = funcs.map (fun f => f.name)
      ∧ res.map (fun r => r.datafusion_time_ms)
          = (List.range funcs.length).map (fun j => Microbenchmarks.pyTry (df j))
      ∧ res.map (fun r => r.duckdb_time_ms)
          = (List.range funcs.length).map (fun j => Microbenchmarks.pyTry (duck j))
      ∧ (res.map (fun r => r.datafusion_time_ms)).get? k = some PFloat.nan := by
  obtain ⟨res, hres, hnames, hdf, hduck⟩ :=
    Microbenchmarks.run_benchmarks_go_spec cols df duck num_rows funcs 0 hexp
  simp only [Nat.zero_add] at hdf hduck
  refine ⟨res, hres, ?_, hnames, hdf, hduck, ?_⟩
  · have := congrArg List.length hnames
    simpa using this
  · rw [hdf, List.get?_map, List.get?_range hk]
    simp [Microbenchmarks.pyTry, hfail]

/-- C2 witness: the real `STRING_FUNCTIONS` suite with `col = 'str_col'`
bindings, the DataFusion call raising on case 19 (`md5`) only, DuckDB
succeeding everywhere. -/
theorem run_benchmarks_failure_isolation_witness :
    (∀ f ∈ Microbenchmarks.STRING_FUNCTIONS,
      (PyFormat.format f.datafusion_expr [("col", "str_col")]).isOk = true
      ∧ (PyFormat.format f.duckdb_expr [("col", "str_col")]).isOk = true)
    ∧ 19 < Microbenchmarks.STRING_FUNCTIONS.length
    ∧ ∃ res, Microbenchmarks.run_benchmarks_go [("col", "str_col")]
        (fun j => if j = 19 then Except.error (PyErr.engineError "md5 failed") else Except.ok 1)
        (fun _ => Except.ok 2) 1000 0 Microbenchmarks.STRING_FUNCTIONS = Except.ok res
      ∧ res.length = Microbenchmarks.STRING_FUNCTIONS.length
      ∧ res.map (fun r => r.function_name)
          = Microbenchmarks.STRING_FUNCTIONS.map (fun f => f.name)
      ∧ res.map (fun r => r.datafusion_time_ms)
          = (List.range Microbenchmarks.STRING_FUNCTIONS.length).map
              (fun j => Microbenchmarks.pyTry
                (if j = 19 then Except.error (PyErr.engineError "md5 failed") else Except.ok 1))
      ∧ res.map (fun r => r.duckdb_time_ms)
          = (List.range Microbenchmarks.STRING_FUNCTIONS.length).map
              (fun j => Microbenchmarks.pyTry (Except.ok 2))
      ∧ (res.map (fun r => r.datafusion_time_ms)).get? 19 = some PFloat.nan :=
  ⟨by decide, by decide,
    run_benchmarks_failure_isolation [("col", "str_col")]
      (fun j => if j = 19 then Except.error (PyErr.engineError "md5 failed") else Except.ok 1)
      (fun _ => Except.ok 2) 1000 Microbenchmarks.STRING_FUNCTIONS 19
      (PyErr.engineError "md5 failed") (by decide) (by decide) (by decide)⟩

namespace Microbenchmarks

/-- The warm-up loop executes the query once per warm-up iteration. -/
theorem warmup_loop_calls (env : TimedEnv) (query : String) :
    ∀ (w j : ℕ) (t : ℚ), (warmup_loop env query j w t).2 = List.replicate w query := by
  intro w
  induction w with
  | zero => intro j t; rfl
  | succ w ih =>
      intro j t
      simp only [warmup_loop, ih, List.replicate_succ]

/-- The timed loop records one sample per iteration, and `(end - start) * 1000`
telescopes to exactly the duration of that iteration's query-execution call
(times 1000): the loop overhead before the `start` reading cancels out. -/
theorem timed_loop_spec (env : TimedEnv) (query : String) :
    ∀ (r j : ℕ) (t : ℚ),
      (timed_loop env query j r t).2.1
          = (List.range r).map (fun i => env.run_time (j + i) * 1000)
      ∧ (timed_loop env query j r t).2.2 = List.replicate r query := by
  intro r
  induction r with
  | zero => intro j t; exact ⟨rfl, rfl⟩
  | succ r ih =>
      intro j t
      obtain ⟨h1, h2⟩ := ih (j + 1) (t + env.loop_overhead j + env.run_time j)
      constructor
      · simp only [timed_loop, h1, List.range_succ_eq_map, List.map_cons, List.map_map]
        have harg : ((fun i => env.run_time (j + i) * 1000) ∘ Nat.succ)
            = fun i => env.run_time (j + 1 + i) * 1000 := by
          funext i
          simp only [Function.comp_apply]
          congr 2
          omega
        rw [Nat.add_zero, harg]
        congr 1
        ring
      · simp only [timed_loop, h2, List.replicate_succ]

/-- Closed form of `benchmark_datafusion`: the returned value is the mean of the
`iterations` per-call durations (in milliseconds) of the timed calls — indices
`warmup ..< warmup + iterations` — and the executed calls are `warmup +
iterations` copies of the query.  With `iterations = 0` the mean raises
`ZeroDivisionError`. -/
theorem benchmark_datafusion_spec (env : TimedEnv) (expr : String) (w n : ℕ) (t0 : ℚ) :
    (benchmark_datafusion env expr w n t0).result
        = (if n = 0 then Except.error PyErr.zeroDivisionError
           else Except.ok ((((List.range n).map (fun i => env.run_time (w + i) * 1000)).sum)
             / (n : ℚ)))
    ∧ (benchmark_datafusion env expr w n t0).calls
        = List.replicate (w + n) ("SELECT " ++ expr ++ " FROM test_data") := by
  rcases hw : warmup_loop env ("SELECT " ++ expr ++ " FROM test_data") 0 w
      (t0 + env.constr_time) with ⟨t2, warm_calls⟩
  rcases ht : timed_loop env ("SELECT " ++ expr ++ " FROM test_data") w n t2
      with ⟨t3, times, timed_calls⟩
  have hwc : warm_calls = List.replicate w ("SELECT " ++ expr ++ " FROM test_data") := by
    have := warmup_loop_calls env ("SELECT " ++ expr ++ " FROM test_data") w 0
      (t0 + env.constr_time)
    rw [hw] at this
    exact this
  obtain ⟨h1, h2⟩ := timed_loop_spec env ("SELECT " ++ expr ++ " FROM test_data") n w t2
  rw [ht] at h1 h2
  simp only at h1 h2
  have hlen : times.length = n := by simp [h1]
  constructor
  · simp only [benchmark_datafusion, hw, ht, h1, List.length_map, List.length_range]
  · simp only [benchmark_datafusion, hw, ht, hwc, h2, List.replicate_add]

/-- Closed form of `benchmark_duckdb` (same body as `benchmark_datafusion`). -/
theorem benchmark_duckdb_spec (env : TimedEnv) (expr : String) (w n : ℕ) (t0 : ℚ) :
    (benchmark_duckdb env expr w n t0).result
        = (if n = 0 then Except.error PyErr.zeroDivisionError
           else Except.ok ((((List.range n).map (fun i => env.run_time (w + i) * 1000)).sum)
             / (n : ℚ)))
    ∧ (benchmark_duckdb env expr w n t0).calls
        = List.replicate (w + n) ("SELECT " ++ expr ++ " FROM test_data") := by
  rcases hw : warmup_loop env ("SELECT " ++ expr ++ " FROM test_data") 0 w
      (t0 + env.constr_time) with ⟨t2, warm_calls⟩
  rcases ht : timed_loop env ("SELECT " ++ expr ++ " FROM test_data") w n t2
      with ⟨t3, times, timed_calls⟩
  have hwc : warm_calls = List.replicate w ("SELECT " ++ expr ++ " FROM test_data") := by
    have := warmup_loop_calls env ("SELECT " ++ expr ++ " FROM test_data") w 0
      (t0 + env.constr_time)
    rw [hw] at this
    exact this
  obtain ⟨h1, h2⟩ := timed_loop_spec env ("SELECT " ++ expr ++ " FROM test_data") n w t2
  rw [ht] at h1 h2
  simp only at h1 h2
  have hlen : times.length = n := by simp [h1]
  constructor
  · simp only [benchmark_duckdb, hw, ht, h1, List.length_map, List.length_range]
  · simp only [benchmark_duckdb, hw, ht, hwc, h2, List.replicate_add]

end Microbenchmarks

/-- C7: for every expression, `warmup ≥ 0` and `iterations ≥ 1`, each
per-engine benchmark function returns the arithmetic mean, in milliseconds, of
exactly `iterations` durations — those of the timed query-execution calls only
(call indices `warmup ..< warmup + iterations`), the clock being read
immediately around the execution call so that loop overhead and query-string
construction are excluded (the result does not depend on `loop_overhead` or
`constr_time`) — while the `warmup` preceding executions run (the call trace has
`warmup + iterations` entries) but contribute nothing to the returned value. -/
theorem benchmark_mean_of_timed_iterations (env : Microbenchmarks.TimedEnv)
    (expr : String) (w n : ℕ) (t0 : ℚ) (hn : 1 ≤ n) :
    (Microbenchmarks.benchmark_datafusion env expr w n t0).result
        = Except.ok ((((List.range n).map (fun i => env.run_time (w + i) * 1000)).sum) / (n : ℚ))
    ∧ (Microbenchmarks.benchmark_datafusion env expr w n t0).calls
        = List.replicate (w + n) ("SELECT " ++ expr ++ " FROM test_data")
    ∧ (Microbenchmarks.benchmark_duckdb env expr w n t0).result
        = Except.ok ((((List.range n).map (fun i => env.run_time (w + i) * 1000)).sum) / (n : ℚ))
    ∧ (Microbenchmarks.benchmark_duckdb env expr w n t0).calls
        = List.replicate (w + n) ("SELECT " ++ expr ++ " FROM test_data")
    ∧ (∀ env' : Microbenchmarks.TimedEnv, env'.run_time = env.run_time →
        (Microbenchmarks.benchmark_datafusion env' expr w n t0).result
          = (Microbenchmarks.benchmark_datafusion env expr w n t0).result) := by
  have hne : ¬ n = 0 := by omega
  have hdf := Microbenchmarks.benchmark_datafusion_spec env expr w n t0
  have hdk := Microbenchmarks.benchmark_duckdb_spec env expr w n t0
  refine ⟨?_, hdf.2, ?_, hdk.2, ?_⟩
  · rw [hdf.1, if_neg hne]
  · rw [hdk.1, if_neg hne]
  · intro env' hrt
    rw [hdf.1, (Microbenchmarks.benchmark_datafusion_spec env' expr w n t0).1, hrt]

/-- C7 witness: constant 1-second execution calls, warmup 2, iterations 5: the
mean is 1000 ms and seven calls execute in total. -/
theorem benchmark_mean_witness :
    (1 : ℕ) ≤ 5
    ∧ (Microbenchmarks.benchmark_datafusion ⟨0, fun _ => 1, fun _ => 0⟩
        "upper(str_col)" 2 5 0).result = Except.ok 1000
    ∧ (Microbenchmarks.benchmark_datafusion ⟨0, fun _ => 1, fun _ => 0⟩
        "upper(str_col)" 2 5 0).calls
        = List.replicate 7 "SELECT upper(str_col) FROM test_data"
    ∧ (Microbenchmarks.benchmark_duckdb ⟨0, fun _ => 1, fun _ => 0⟩
        "upper(str_col)" 2 5 0).result = Except.ok 1000 := by
  have h := benchmark_mean_of_timed_iterations ⟨0, fun _ => 1, fun _ => 0⟩
    "upper(str_col)" 2 5 0 (by norm_num)
  refine ⟨by norm_num, ?_, ?_, ?_⟩
  · rw [h.1]; norm_num
  · rw [h.2.1]; rfl
  · rw [h.2.2.1]; norm_num

/-- C10: the per-engine benchmark functions are total only for
`iterations ≥ 1`: with `iterations = 0` — a value the `--iterations` flag's
`type=int` converter accepts — `sum(times) / len(times)` divides by zero and
the call raises `ZeroDivisionError` instead of returning a latency, while for
every `iterations ≥ 1` a latency is returned. -/
theorem benchmark_zero_iterations_raises (env : Microbenchmarks.TimedEnv)
    (expr : String) (w : ℕ) (t0 : ℚ) :
    (Microbenchmarks.benchmark_datafusion env expr w 0 t0).result
        = Except.error PyErr.zeroDivisionError
    ∧ (Microbenchmarks.benchmark_duckdb env expr w 0 t0).result
        = Except.error PyErr.zeroDivisionError
    ∧ Microbenchmarks.argparse_int "0" = some 0
    ∧ (∀ n : ℕ, 1 ≤ n →
        ∃ v, (Microbenchmarks.benchmark_datafusion env expr w n t0).result = Except.ok v) := by
  refine ⟨?_, ?_, ?_, ?_⟩
  · rw [(Microbenchmarks.benchmark_datafusion_spec env expr w 0 t0).1]; rfl
  · rw [(Microbenchmarks.benchmark_duckdb_spec env expr w 0 t0).1]; rfl
  · rfl
  · intro n hn
    have hne : ¬ n = 0 := by omega
    exact ⟨_, by rw [(Microbenchmarks.benchmark_datafusion_spec env expr w n t0).1, if_neg hne]⟩

/-- C10 witness: with warmup 2, `iterations = 0` raises and `iterations = 5`
returns a value. -/
theorem benchmark_zero_iterations_witness :
    (Microbenchmarks.benchmark_datafusion ⟨0, fun _ => 1, fun _ => 0⟩
        "trim(str_col)" 2 0 0).result = Except.error PyErr.zeroDivisionError
    ∧ Microbenchmarks.argparse_int "0" = some 0
    ∧ (1 : ℕ) ≤ 5
    ∧ (∃ v, (Microbenchmarks.benchmark_datafusion ⟨0, fun _ => 1, fun _ => 0⟩
        "trim(str_col)" 2 5 0).result = Except.ok v) :=
  ⟨(benchmark_zero_iterations_raises ⟨0, fun _ => 1, fun _ => 0⟩ "trim(str_col)" 2 0).1,
    (benchmark_zero_iterations_raises ⟨0, fun _ => 1, fun _ => 0⟩ "trim(str_col)" 2 0).2.2.1,
    by norm_num,
    (benchmark_zero_iterations_raises ⟨0, fun _ => 1, fun _ => 0⟩ "trim(str_col)" 2 0).2.2.2
      5 (by norm_num)⟩

namespace GenerateComparison

/-- Closed form of the summary loop: when every queried key holds a sample
list with a median, the loop returns the accumulator plus the sums of the
per-query medians. -/
theorem generate_summary_go_spec (baseline comparison : String → List ℚ)
    (mb mc : ℕ → ℚ) :
    ∀ (qs : List ℕ) (acc : ℚ × ℚ),
      (∀ q ∈ qs, np_median (baseline (toString q)) = some (mb q)
        ∧ np_median (comparison (toString q)) = some (mc q)) →
      generate_summary_go baseline comparison qs acc
        = some (acc.1 + (qs.map mb).sum, acc.2 + (qs.map mc).sum) := by
  intro qs
  induction qs with
  | nil => intro acc _; cases acc; simp [generate_summary_go]
  | cons q rest ih =>
      intro acc h
      have hq := h q (List.mem_cons_self q rest)
      have hrest := ih (acc.1 + mb q, acc.2 + mc q)
        (fun p hp => h p (List.mem_cons_of_mem q hp))
      simp only [generate_summary_go, hq.1, hq.2, bind, Option.bind, hrest,
        List.map_cons, List.sum_cons]
      simp [add_assoc]

/-- The summary loop reads the log functions only at the keys it iterates. -/
theorem generate_summary_go_congr (b b' c c' : String → List ℚ) :
    ∀ (qs : List ℕ) (acc : ℚ × ℚ),
      (∀ q ∈ qs, b (toString q) = b' (toString q) ∧ c (toString q) = c' (toString q)) →
      generate_summary_go b c qs acc = generate_summary_go b' c' qs acc := by
  intro qs
  induction qs with
  | nil => intro acc _; rfl
  | cons q rest ih =>
      intro acc h
      have hq := h q (List.mem_cons_self q rest)
      simp only [generate_summary_go, hq.1, hq.2]
      cases np_median (b' (toString q)) with
      | none => rfl
      | some mb =>
          cases np_median (c' (toString q)) with
          | none => rfl
          | some mc =>
              exact ih _ (fun p hp => h p (List.mem_cons_of_mem q hp))

end GenerateComparison

/-- C9: the comparison tooling's summary reads exactly the stringified keys
`"1"` through `"22"` from each timing log — its output depends on nothing else
in the log — and each file's aggregate total equals the sum, over queries
1..22, of the median of that query's latency samples. -/
theorem generate_summary_reads_keys_and_sums_medians :
    GenerateComparison.keys_read
      = ["1", "2", "3", "4", "5", "6", "7", "8", "9", "10", "11",
         "12", "13", "14", "15", "16", "17", "18", "19", "20", "21", "22"]
    ∧ (∀ b b' c c' : String → List ℚ,
        (∀ k ∈ GenerateComparison.keys_read, b k = b' k ∧ c k = c' k) →
        GenerateComparison.generate_summary b c
          = GenerateComparison.generate_summary b' c')
    ∧ (∀ (b c : String → List ℚ) (mb mc : ℕ → ℚ),
        (∀ q ∈ GenerateComparison.query_range,
          GenerateComparison.np_median (b (toString q)) = some (mb q)
          ∧ GenerateComparison.np_median (c (toString q)) = some (mc q)) →
        GenerateComparison.generate_summary b c
          = some ((GenerateComparison.query_range.map mb).sum,
                  (GenerateComparison.query_range.map mc).sum)) := by
  refine ⟨by decide, ?_, ?_⟩
  · intro b b' c c' h
    exact GenerateComparison.generate_summary_go_congr b b' c c'
      GenerateComparison.query_range (0, 0)
      (fun q hq => h (toString q) (List.mem_map_of_mem (fun p => toString p) hq))
  · intro b c mb mc h
    have := GenerateComparison.generate_summary_go_spec b c mb mc
      GenerateComparison.query_range (0, 0) h
    simpa [GenerateComparison.generate_summary] using this

/-- C9 witness: a log with samples `[3, 1, 2]` (median 2) under every key for
the baseline and `[5]` (median 5) for the comparison: totals `2 × 22 = 44` and
`5 × 22 = 110`. -/
theorem generate_summary_witness :
    GenerateComparison.generate_summary (fun _ => [3, 1, 2]) (fun _ => [5])
      = some (44, 110) := by
  have h := generate_summary_reads_keys_and_sums_medians.2.2
    (fun _ => [3, 1, 2]) (fun _ => [5]) (fun _ => 2) (fun _ => 5)
    (fun q _ =>
      ⟨by simpa using (show GenerateComparison.np_median [3, 1, 2] = some 2 by decide),
       by simpa using (show GenerateComparison.np_median [5] = some 5 by decide)⟩)
  have h2 : (GenerateComparison.query_range.map (fun _ => (2 : ℚ))).sum = 44 := by
    simp only [GenerateComparison.query_range, List.map_map, Function.comp_def,
      List.map_const', List.length_range, List.sum_replicate, smul_eq_mul]
    norm_num
  have h3 : (GenerateComparison.query_range.map (fun _ => (5 : ℚ))).sum = 110 := by
    simp only [GenerateComparison.query_range, List.map_map, Function.comp_def,
      List.map_const', List.length_range, List.sum_replicate, smul_eq_mul]
    norm_num
  rw [h, h2, h3]
